import Mathlib

/-!
# Verification of the draw-measure annotation state engine

This file gives a shallow embedding of the annotation state engine of the
draw-measure repository (`src/hooks/useDrawingState.ts`, first/current version
of the hook, plus the circle-resize logic of
`src/components/drawing/DrawingCanvas.tsx`) and proves or refutes the frozen
claims about it.

Modelling conventions:
* JavaScript numbers used for canvas coordinates are modelled as rationals
  (`ℚ`); all coordinate arithmetic the state machine performs (squared
  distances, halving, absolute value) is exact on the inputs considered.
* `generateId()` (a random, process-unique token) is modelled by a fresh-id
  counter `nextId`; each call yields the current counter value and bumps it.
  Ids are `Nat`.
* A JavaScript `Set<string>` is modelled as a duplicate-free `List Nat` in
  insertion order: `add` appends when absent, `delete` filters.
* `Array.prototype.includes` / `Set.has` are list membership.
* The `distance <= threshold` test of `findPointAtPosition` compares
  `sqrt (dx^2+dy^2) <= 15`; since both sides are nonnegative this is the same
  as `dx*dx + dy*dy <= 225`, which is the decidable form used here.
* The cached `degrees` of an angle is a real number; the geometric functions
  that produce it are modelled separately over `ℝ` in the geometry section.
-/

namespace DrawMeasure

/-- The tool union type of `src/types/drawing.ts`. -/
inductive ToolType where
  | cursor
  | marker
  | angle
  | circle
deriving DecidableEq

/-- Model of `Point` of `src/types/drawing.ts`. -/
structure Point where
  id : Nat
  x : ℚ
  y : ℚ
deriving DecidableEq

/-- Model of `Line` of `src/types/drawing.ts`. -/
structure Line where
  id : Nat
  label : String
  startPointId : Nat
  endPointId : Nat
deriving DecidableEq

/-- Model of `Angle` of `src/types/drawing.ts`; `degrees` is the cached measurement. -/
structure Angle where
  id : Nat
  label : String
  line1Id : Nat
  line2Id : Nat
  vertexPointId : Nat
  degrees : ℝ

/-- Model of `Circle` of `src/types/drawing.ts`. -/
structure Circle where
  id : Nat
  centerX : ℚ
  centerY : ℚ
  radius : ℚ
deriving DecidableEq

/-- A `Partial<Circle>` update as used by the resize/move interactions:
`{centerX?, centerY?, radius?}`. -/
structure CircleUpdate where
  centerX : Option ℚ
  centerY : Option ℚ
  radius : Option ℚ
deriving DecidableEq

/-- The complete reactive state owned by `useDrawingState`. -/
structure DrawingState where
  points : List Point
  lines : List Line
  angles : List Angle
  circle : Option Circle
  isCircleSelected : Bool
  currentTool : ToolType
  activePointId : Option Nat
  selectedPointIds : List Nat
  selectedLineIds : List Nat
  selectedAngleIds : List Nat
  mousePosition : Option (ℚ × ℚ)
  angleFirstLineId : Option Nat
  nextId : Nat

/-- The initial state of the hook (`useState` initialisers). -/
def initState : DrawingState where
  points := []
  lines := []
  angles := []
  circle := none
  isCircleSelected := false
  currentTool := ToolType.marker
  activePointId := none
  selectedPointIds := []
  selectedLineIds := []
  selectedAngleIds := []
  mousePosition := none
  angleFirstLineId := none
  nextId := 0

/-- Model of `DEFAULT_CIRCLE_RADIUS`. -/
def DEFAULT_CIRCLE_RADIUS : ℚ := 50

/-- JS `Set.delete`: remove the element if present. -/
def setErase (x : Nat) (l : List Nat) : List Nat :=
  l.filter (fun y => decide (y ≠ x))

/-- The ctrl-click branch of the `select*` handlers: delete the id when
present, otherwise add it (JS `Set.add` appends a new element). -/
def setToggle (x : Nat) (l : List Nat) : List Nat :=
  if x ∈ l then setErase x l else l ++ [x]

/-- The alphabet string of `getNextLabel`, as the list of its characters. -/
def alphabet : List String :=
  ["A", "B", "C", "D", "E", "F", "G", "H", "I", "J", "K", "L", "M",
   "N", "O", "P", "Q", "R", "S", "T", "U", "V", "W", "X", "Y", "Z"]

/-- Model of `getNextLabel`: first alphabet letter missing from `existingLabels`,
else the overflow label `L<existingLabels.length + 1>`. -/
def getNextLabel (existingLabels : List String) : String :=
  match alphabet.find? (fun c => decide (c ∉ existingLabels)) with
  | some c => c
  | none => "L" ++ toString (existingLabels.length + 1)

/-- Model of `findOrphanedPointIds`: ids of points not an endpoint of any line. -/
def findOrphanedPointIds (currentLines : List Line) (currentPoints : List Point) :
    List Nat :=
  (currentPoints.filter (fun p =>
    decide (∀ l ∈ currentLines, l.startPointId ≠ p.id ∧ l.endPointId ≠ p.id))).map
    Point.id

/-- Model of `findPointAtPosition` with the default threshold 15: first point whose
distance from the click is at most 15 (squared-distance form). -/
def findPointAtPosition (s : DrawingState) (x y : ℚ) : Option Point :=
  s.points.find? (fun p =>
    decide ((p.x - x) * (p.x - x) + (p.y - y) * (p.y - y) ≤ 225))

/-- Model of `lineExists`: some line of the collection joins the two point
ids, in either direction (the hook closure reads only the line state). -/
def lineExists (lines : List Line) (pointId1 pointId2 : Nat) : Bool :=
  lines.any (fun line =>
    (line.startPointId == pointId1 && line.endPointId == pointId2) ||
    (line.startPointId == pointId2 && line.endPointId == pointId1))

/-- Model of `addPoint`: append a fresh point, returning its id with the new state. -/
def addPoint (x y : ℚ) (s : DrawingState) : Nat × DrawingState :=
  (s.nextId,
   { s with points := s.points ++ [⟨s.nextId, x, y⟩], nextId := s.nextId + 1 })

/-- The line-completion tail of `handleCanvasClick`: unless a line between
the active point and the end target already exists, append a new line with
the next free label; in both cases the end target becomes the active point. -/
def completeLine (apid endPointId : Nat) (s : DrawingState) : DrawingState :=
  let s2 :=
    if lineExists s.lines apid endPointId then s
    else
      { s with
        lines := s.lines ++
          [⟨s.nextId, getNextLabel (s.lines.map Line.label), apid, endPointId⟩],
        nextId := s.nextId + 1 }
  { s2 with activePointId := some endPointId }

/-- Model of `handleCanvasClick`: the marker-tool click handler. -/
def handleCanvasClick (x y : ℚ) (s : DrawingState) : DrawingState :=
  if s.currentTool ≠ ToolType.marker then s
  else
    match s.activePointId with
    | none =>
      match findPointAtPosition s x y with
      | some existingPoint => { s with activePointId := some existingPoint.id }
      | none =>
        let (newPointId, s1) := addPoint x y s
        { s1 with activePointId := some newPointId }
    | some apid =>
      match findPointAtPosition s x y with
      | some existingPoint =>
        if existingPoint.id = apid then s
        else completeLine apid existingPoint.id s
      | none =>
        let (endPointId, s1) := addPoint x y s
        completeLine apid endPointId s1

/-- Model of `deletePoint`: drop the point, cascade to incident lines, drop angles
referencing those lines, sweep orphaned points, fix up active point and
point selection. -/
def deletePoint (pointId : Nat) (s : DrawingState) : DrawingState :=
  let newLines := s.lines.filter (fun line =>
    decide (line.startPointId ≠ pointId ∧ line.endPointId ≠ pointId))
  let remainingPoints := s.points.filter (fun p => decide (p.id ≠ pointId))
  let orphanedIds := findOrphanedPointIds newLines remainingPoints
  let newPoints := remainingPoints.filter (fun p => decide (p.id ∉ orphanedIds))
  let deletedLineIds :=
    (s.lines.filter (fun line =>
      decide (line.startPointId = pointId ∨ line.endPointId = pointId))).map Line.id
  let newAngles := s.angles.filter (fun a =>
    decide (a.line1Id ∉ deletedLineIds ∧ a.line2Id ∉ deletedLineIds))
  { s with
    lines := newLines
    points := newPoints
    angles := newAngles
    activePointId := if s.activePointId = some pointId then none else s.activePointId
    selectedPointIds := setErase pointId s.selectedPointIds }

/-- Model of `deleteLine`: drop the line, drop angles referencing it, sweep orphaned
points, fix up line selection. -/
def deleteLine (lineId : Nat) (s : DrawingState) : DrawingState :=
  let newLines := s.lines.filter (fun l => decide (l.id ≠ lineId))
  let orphanedIds := findOrphanedPointIds newLines s.points
  let newPoints := s.points.filter (fun p => decide (p.id ∉ orphanedIds))
  let newAngles := s.angles.filter (fun a =>
    decide (a.line1Id ≠ lineId ∧ a.line2Id ≠ lineId))
  { s with
    lines := newLines
    points := newPoints
    angles := newAngles
    selectedLineIds := setErase lineId s.selectedLineIds }

/-- Model of `deleteAngle`: drop only the angle and its selection membership. -/
def deleteAngle (angleId : Nat) (s : DrawingState) : DrawingState :=
  { s with
    angles := s.angles.filter (fun a => decide (a.id ≠ angleId))
    selectedAngleIds := setErase angleId s.selectedAngleIds }

/-- Model of `deleteCircle`: clear the circle and its selection flag. -/
def deleteCircle (s : DrawingState) : DrawingState :=
  { s with circle := none, isCircleSelected := false }

/-- Model of `deleteSelected`: combined deletion of the current multi-class selection. -/
def deleteSelected (s : DrawingState) : DrawingState :=
  let circle1 := if s.isCircleSelected then none else s.circle
  let circleSel1 := if s.isCircleSelected then false else s.isCircleSelected
  let angles1 := s.angles.filter (fun a => decide (a.id ∉ s.selectedAngleIds))
  let newLines :=
    (s.lines.filter (fun l => decide (l.id ∉ s.selectedLineIds))).filter
      (fun line => decide (line.startPointId ∉ s.selectedPointIds ∧
                           line.endPointId ∉ s.selectedPointIds))
  let deletedLineIds :=
    s.selectedLineIds ++
      (s.lines.filter (fun line =>
        decide (line.startPointId ∈ s.selectedPointIds ∨
                line.endPointId ∈ s.selectedPointIds))).map Line.id
  let newAngles := angles1.filter (fun a =>
    decide (a.line1Id ∉ deletedLineIds ∧ a.line2Id ∉ deletedLineIds))
  let remainingPoints := s.points.filter (fun p =>
    decide (p.id ∉ s.selectedPointIds))
  let orphanedIds := findOrphanedPointIds newLines remainingPoints
  let newPoints := remainingPoints.filter (fun p => decide (p.id ∉ orphanedIds))
  let active1 :=
    match s.activePointId with
    | some apid => if apid ∈ s.selectedPointIds then none else s.activePointId
    | none => s.activePointId
  { s with
    circle := circle1
    isCircleSelected := circleSel1
    angles := newAngles
    lines := newLines
    points := newPoints
    activePointId := active1
    selectedPointIds := []
    selectedLineIds := []
    selectedAngleIds := [] }

/-- Model of `clearAll`: reset every collection and every transient field. -/
def clearAll (s : DrawingState) : DrawingState :=
  { s with
    points := []
    lines := []
    angles := []
    circle := none
    isCircleSelected := false
    activePointId := none
    angleFirstLineId := none
    selectedPointIds := []
    selectedLineIds := []
    selectedAngleIds := [] }

/-- Model of `selectPoint(pointId, ctrlKey)`. -/
def selectPoint (pointId : Option Nat) (ctrlKey : Bool) (s : DrawingState) :
    DrawingState :=
  match pointId with
  | none => { s with selectedPointIds := [] }
  | some pid =>
    if ctrlKey then
      { s with selectedPointIds := setToggle pid s.selectedPointIds }
    else
      { s with
        selectedPointIds := [pid]
        selectedLineIds := []
        selectedAngleIds := [] }

/-- Model of `selectLine(lineId, ctrlKey)`. -/
def selectLine (lineId : Option Nat) (ctrlKey : Bool) (s : DrawingState) :
    DrawingState :=
  match lineId with
  | none => { s with selectedLineIds := [] }
  | some lid =>
    if ctrlKey then
      { s with selectedLineIds := setToggle lid s.selectedLineIds }
    else
      { s with
        selectedLineIds := [lid]
        selectedPointIds := []
        selectedAngleIds := [] }

/-- Model of `selectAngle(angleId, ctrlKey)`. -/
def selectAngle (angleId : Option Nat) (ctrlKey : Bool) (s : DrawingState) :
    DrawingState :=
  match angleId with
  | none => { s with selectedAngleIds := [] }
  | some aid =>
    if ctrlKey then
      { s with selectedAngleIds := setToggle aid s.selectedAngleIds }
    else
      { s with
        selectedAngleIds := [aid]
        selectedPointIds := []
        selectedLineIds := [] }

/-- Model of `selectCircle`: only effective while the circle tool is current. -/
def selectCircle (s : DrawingState) : DrawingState :=
  if s.currentTool = ToolType.circle then
    { s with
      isCircleSelected := true
      selectedPointIds := []
      selectedLineIds := []
      selectedAngleIds := [] }
  else s

/-- Model of `clearSelection`. -/
def clearSelection (s : DrawingState) : DrawingState :=
  { s with selectedPointIds := [], selectedLineIds := [], selectedAngleIds := [] }

/-- Model of `cancelActivePoint`. -/
def cancelActivePoint (s : DrawingState) : DrawingState :=
  { s with activePointId := none, angleFirstLineId := none }

/-- Model of `updatePointPosition`. -/
def updatePointPosition (pointId : Nat) (x y : ℚ) (s : DrawingState) :
    DrawingState :=
  { s with points := s.points.map (fun p =>
      if p.id = pointId then { p with x := x, y := y } else p) }

/-- The merge `{ ...prev, ...updates }` of `updateCircle`: fields present in
the update replace the circle's, the id and absent fields are kept. -/
def applyCircleUpdate (updates : CircleUpdate) (c : Circle) : Circle :=
  { id := c.id
    centerX := updates.centerX.getD c.centerX
    centerY := updates.centerY.getD c.centerY
    radius := updates.radius.getD c.radius }

/-- Model of `updateCircle`: merge a partial update into the circle when one exists. -/
def updateCircle (updates : CircleUpdate) (s : DrawingState) : DrawingState :=
  match s.circle with
  | some prev => { s with circle := some (applyCircleUpdate updates prev) }
  | none => s

/-- Model of `handleCircleToolClick`: create the singleton circle with the default
radius; a no-op while a circle exists. -/
def handleCircleToolClick (x y : ℚ) (s : DrawingState) : DrawingState :=
  match s.circle with
  | some _ => s
  | none =>
    { s with
      circle := some ⟨s.nextId, x, y, DEFAULT_CIRCLE_RADIUS⟩
      nextId := s.nextId + 1 }

/-- Model of `setCurrentTool`: tool switch with its cleanup (the `setTimeout`-deferred
orphan sweep of the cursor branch is applied synchronously here). -/
def setCurrentTool (tool : ToolType) (s : DrawingState) : DrawingState :=
  let s1 := if tool ≠ ToolType.circle then { s with isCircleSelected := false } else s
  let s2 :=
    match tool with
    | ToolType.cursor =>
      let orphanedIds := findOrphanedPointIds s1.lines s1.points
      { s1 with
        activePointId := none
        angleFirstLineId := none
        points := s1.points.filter (fun p => decide (p.id ∉ orphanedIds)) }
    | ToolType.marker => { s1 with angleFirstLineId := none }
    | ToolType.angle => { s1 with activePointId := none, angleFirstLineId := none }
    | ToolType.circle => { s1 with activePointId := none, angleFirstLineId := none }
  { s2 with currentTool := tool }



/-- Predicate: every point of the state has at least one incident line. -/
def NoOrphanPoints (s : DrawingState) : Prop :=
  ∀ p ∈ s.points, ∃ l ∈ s.lines, l.startPointId = p.id ∨ l.endPointId = p.id

/-- Predicate: a line id that was removed when stepping from `before` to
`after` (some line of `before` has it and no line of `after` does). -/
def RemovedLineId (before after : DrawingState) (lid : Nat) : Prop :=
  (∃ l ∈ before.lines, l.id = lid) ∧ ∀ l ∈ after.lines, l.id ≠ lid

/-- Predicate: no surviving angle references a line removed by the step from
`before` to `after`. -/
def NoDanglingAngleRefs (before after : DrawingState) : Prop :=
  ∀ a ∈ after.angles, ∀ lid, RemovedLineId before after lid →
    a.line1Id ≠ lid ∧ a.line2Id ≠ lid

/-- Filtering out the orphan ids computed by `findOrphanedPointIds` leaves
only points with an incident line. -/
lemma mem_filter_orphans (ls : List Line) (ps : List Point) (p : Point)
    (hp : p ∈ ps.filter (fun p => decide (p.id ∉ findOrphanedPointIds ls ps))) :
    ∃ l ∈ ls, l.startPointId = p.id ∨ l.endPointId = p.id := by
  rw [List.mem_filter, decide_eq_true_eq] at hp
  obtain ⟨hmem, hdec⟩ := hp
  by_contra hno
  push_neg at hno
  apply hdec
  unfold findOrphanedPointIds
  apply List.mem_map.mpr
  refine ⟨p, ?_, rfl⟩
  rw [List.mem_filter, decide_eq_true_eq]
  refine ⟨hmem, fun l hl => ?_⟩
  have h2 := hno l hl
  tauto

lemma deletePoint_noOrphans (pointId : Nat) (s : DrawingState) :
    NoOrphanPoints (deletePoint pointId s) := by
  intro p hp
  exact mem_filter_orphans _ _ p hp

lemma deleteLine_noOrphans (lineId : Nat) (s : DrawingState) :
    NoOrphanPoints (deleteLine lineId s) := by
  intro p hp
  exact mem_filter_orphans _ _ p hp

lemma deleteSelected_noOrphans (s : DrawingState) :
    NoOrphanPoints (deleteSelected s) := by
  intro p hp
  exact mem_filter_orphans _ _ p hp



lemma deletePoint_noDangling (pointId : Nat) (s : DrawingState) :
    NoDanglingAngleRefs s (deletePoint pointId s) := by
  intro a ha lid hrem
  obtain ⟨⟨l, hl, hlid⟩, hafter⟩ := hrem
  -- the removed line must be incident to the deleted point
  have hinc : l.startPointId = pointId ∨ l.endPointId = pointId := by
    by_contra hni
    push_neg at hni
    refine hafter l ?_ hlid
    show l ∈ (deletePoint pointId s).lines
    simp only [deletePoint]
    rw [List.mem_filter, decide_eq_true_eq]
    exact ⟨hl, hni.1, hni.2⟩
  -- hence its id is in the deleted-line-id set used by the angle filter
  have hin : lid ∈ (s.lines.filter (fun line =>
      decide (line.startPointId = pointId ∨ line.endPointId = pointId))).map Line.id := by
    apply List.mem_map.mpr
    refine ⟨l, ?_, hlid⟩
    rw [List.mem_filter, decide_eq_true_eq]
    exact ⟨hl, hinc⟩
  have ha2 : a ∈ (deletePoint pointId s).angles := ha
  simp only [deletePoint] at ha2
  rw [List.mem_filter, decide_eq_true_eq] at ha2
  obtain ⟨-, h1, h2⟩ := ha2
  exact ⟨fun h => h1 (h ▸ hin), fun h => h2 (h ▸ hin)⟩

lemma deleteLine_noDangling (lineId : Nat) (s : DrawingState) :
    NoDanglingAngleRefs s (deleteLine lineId s) := by
  intro a ha lid hrem
  obtain ⟨⟨l, hl, hlid⟩, hafter⟩ := hrem
  have heq : lid = lineId := by
    by_contra hne
    refine hafter l ?_ hlid
    show l ∈ (deleteLine lineId s).lines
    simp only [deleteLine]
    rw [List.mem_filter, decide_eq_true_eq]
    refine ⟨hl, ?_⟩
    rw [hlid]
    exact hne
  have ha2 : a ∈ (deleteLine lineId s).angles := ha
  simp only [deleteLine] at ha2
  rw [List.mem_filter, decide_eq_true_eq] at ha2
  rw [heq]
  exact ha2.2

lemma deleteAngle_noDangling (angleId : Nat) (s : DrawingState) :
    NoDanglingAngleRefs s (deleteAngle angleId s) := by
  intro a ha lid hrem
  obtain ⟨⟨l, hl, hlid⟩, hafter⟩ := hrem
  exact absurd hlid (hafter l hl)

lemma deleteCircle_noDangling (s : DrawingState) :
    NoDanglingAngleRefs s (deleteCircle s) := by
  intro a ha lid hrem
  obtain ⟨⟨l, hl, hlid⟩, hafter⟩ := hrem
  exact absurd hlid (hafter l hl)

lemma deleteSelected_noDangling (s : DrawingState) :
    NoDanglingAngleRefs s (deleteSelected s) := by
  intro a ha lid hrem
  obtain ⟨⟨l, hl, hlid⟩, hafter⟩ := hrem
  -- the removed line was selected or touches a selected point
  have hsel : l.id ∈ s.selectedLineIds ∨
      (l.startPointId ∈ s.selectedPointIds ∨ l.endPointId ∈ s.selectedPointIds) := by
    by_contra hni
    push_neg at hni
    refine hafter l ?_ hlid
    show l ∈ (deleteSelected s).lines
    simp only [deleteSelected]
    rw [List.mem_filter, decide_eq_true_eq, List.mem_filter, decide_eq_true_eq]
    exact ⟨⟨hl, hni.1⟩, hni.2.1, hni.2.2⟩
  have hin : lid ∈ s.selectedLineIds ++
      (s.lines.filter (fun line =>
        decide (line.startPointId ∈ s.selectedPointIds ∨
                line.endPointId ∈ s.selectedPointIds))).map Line.id := by
    rw [List.mem_append]
    rcases hsel with h | h
    · exact Or.inl (hlid ▸ h)
    · refine Or.inr (List.mem_map.mpr ⟨l, ?_, hlid⟩)
      rw [List.mem_filter, decide_eq_true_eq]
      exact ⟨hl, h⟩
  have ha2 : a ∈ (deleteSelected s).angles := ha
  simp only [deleteSelected] at ha2
  rw [List.mem_filter, decide_eq_true_eq] at ha2
  obtain ⟨-, h1, h2⟩ := ha2
  exact ⟨fun h => h1 (h ▸ hin), fun h => h2 (h ▸ hin)⟩

/-- State after one marker click at the origin: a single pending point with
no incident line, held as the active point. -/
def stateOneClick : DrawingState :=
  { initState with
    points := [⟨0, 0, 0⟩]
    activePointId := some 0
    nextId := 1 }

lemma click1_eval : handleCanvasClick 0 0 initState = stateOneClick := by
  norm_num [handleCanvasClick, initState, findPointAtPosition, addPoint, stateOneClick]

/-- State after marker clicks at (0,0) and (100,0): two points joined by
line "A", the second point active. -/
def stateTwoClicks : DrawingState :=
  { initState with
    points := [⟨0, 0, 0⟩, ⟨1, 100, 0⟩]
    lines := [⟨2, "A", 0, 1⟩]
    activePointId := some 1
    nextId := 3 }

lemma click2_eval : handleCanvasClick 100 0 stateOneClick = stateTwoClicks := by
  norm_num [handleCanvasClick, stateOneClick, initState, findPointAtPosition,
    addPoint, completeLine, lineExists, getNextLabel, alphabet, stateTwoClicks]

/-- State after deleting line 2 from `stateTwoClicks`: the orphan sweep
removes both points, but the stale active-point id 1 survives. -/
def stateStaleActive : DrawingState :=
  { initState with
    activePointId := some 1
    nextId := 3 }

lemma deleteLine2_eval : deleteLine 2 stateTwoClicks = stateStaleActive := by
  norm_num [deleteLine, stateTwoClicks, initState, findOrphanedPointIds,
    setErase, stateStaleActive]

/-- State after a further marker click at (200,0) on `stateStaleActive`:
the new line's startPointId is the deleted point id 1. -/
def stateDangling : DrawingState :=
  { initState with
    points := [⟨3, 200, 0⟩]
    lines := [⟨4, "A", 1, 3⟩]
    activePointId := some 3
    nextId := 5 }

lemma click3_eval : handleCanvasClick 200 0 stateStaleActive = stateDangling := by
  norm_num [handleCanvasClick, stateStaleActive, initState, findPointAtPosition,
    addPoint, completeLine, lineExists, getNextLabel, alphabet, stateDangling]

/-- The state reached by the public mutation sequence
click (0,0); click (100,0); deleteLine 2; click (200,0). -/
def c1FinalState : DrawingState :=
  handleCanvasClick 200 0 (deleteLine 2 (handleCanvasClick 100 0
    (handleCanvasClick 0 0 initState)))

/-- C1: violated on a reachable state (code bug). The public mutation
sequence click (0,0); click (100,0); deleteLine 2; click (200,0) ends with
a single line whose startPointId (the stale active-point id 1, whose point
was swept away by deleteLine's orphan sweep) is the id of no existing
point: deleteLine never clears the active point, so the next click builds a
line from a deleted point. -/
theorem c1_reachable_dangling_line_endpoint :
    c1FinalState.lines = [⟨4, "A", 1, 3⟩] ∧
    c1FinalState.points = [⟨3, 200, 0⟩] ∧
    ∃ l ∈ c1FinalState.lines, ∀ p ∈ c1FinalState.points, p.id ≠ l.startPointId := by
  have h : c1FinalState = stateDangling := by
    rw [c1FinalState, click1_eval, click2_eval, deleteLine2_eval, click3_eval]
  rw [h]
  refine ⟨rfl, rfl, ⟨4, "A", 1, 3⟩, ?_, ?_⟩
  · simp [stateDangling, initState]
  · intro p hp
    simp [stateDangling, initState] at hp
    rw [hp]
    simp

/-- C2 (counterexample): after the delete operation `deleteAngle`, a point
with zero incident lines can exist — the pending point created by a marker
click survives `deleteAngle`, which performs no orphan sweep. -/
theorem c2_counterexample :
    ∃ p ∈ (deleteAngle 5 (handleCanvasClick 0 0 initState)).points,
      ∀ l ∈ (deleteAngle 5 (handleCanvasClick 0 0 initState)).lines,
        l.startPointId ≠ p.id ∧ l.endPointId ≠ p.id := by
  rw [click1_eval]
  refine ⟨⟨0, 0, 0⟩, ?_, ?_⟩
  · simp [deleteAngle, stateOneClick, initState, setErase]
  · intro l hl
    simp [deleteAngle, stateOneClick, initState, setErase] at hl

/-- C2 (amended): after `deletePoint`, `deleteLine` and `deleteSelected` no
point is left with zero incident lines, and after every delete operation
(`deletePoint`, `deleteLine`, `deleteAngle`, `deleteCircle`,
`deleteSelected`) no surviving angle references a line removed by that same
operation. (`deleteAngle` and `deleteCircle` remove no lines, but they also
perform no orphan sweep, so the zero-incident-line part does not hold for
them — see the counterexample.) -/
theorem c2_delete_consistency (s : DrawingState) (pointId lineId angleId : Nat) :
    NoOrphanPoints (deletePoint pointId s) ∧
    NoOrphanPoints (deleteLine lineId s) ∧
    NoOrphanPoints (deleteSelected s) ∧
    NoDanglingAngleRefs s (deletePoint pointId s) ∧
    NoDanglingAngleRefs s (deleteLine lineId s) ∧
    NoDanglingAngleRefs s (deleteAngle angleId s) ∧
    NoDanglingAngleRefs s (deleteCircle s) ∧
    NoDanglingAngleRefs s (deleteSelected s) :=
  ⟨deletePoint_noOrphans pointId s, deleteLine_noOrphans lineId s,
   deleteSelected_noOrphans s, deletePoint_noDangling pointId s,
   deleteLine_noDangling lineId s, deleteAngle_noDangling angleId s,
   deleteCircle_noDangling s, deleteSelected_noDangling s⟩

/-- Chain state with three points 0, 1, 3 and lines A (0-1) and B (1-3),
used as a concrete input for witnesses. -/
def sChain : DrawingState :=
  { initState with
    points := [⟨0, 0, 0⟩, ⟨1, 100, 0⟩, ⟨3, 200, 0⟩]
    lines := [⟨2, "A", 0, 1⟩, ⟨4, "B", 1, 3⟩]
    nextId := 5 }

/-- C2 witness: instantiating the amended claim at the concrete chain state
with `deletePoint 0` yields an incident line for the surviving point 1. -/
theorem c2_witness :
    ∃ l ∈ (deletePoint 0 sChain).lines, l.startPointId = 1 ∨ l.endPointId = 1 :=
  (c2_delete_consistency sChain 0 0 0).1 ⟨1, 100, 0⟩ (by
    norm_num [deletePoint, sChain, initState, findOrphanedPointIds])

/-- C3 (counterexample): in the Pending state (active point 0 held), a
click resolving to the active point itself does not return the machine to
Idle — the active point is unchanged (the code returns early without
clearing it), contradicting the claim that the active point becomes null. -/
theorem c3_counterexample :
    (handleCanvasClick 0 0 (handleCanvasClick 0 0 initState)).activePointId = some 0 := by
  rw [click1_eval]
  norm_num [handleCanvasClick, stateOneClick, initState, findPointAtPosition]

/-- C3 (amended): in the Pending state, a click that resolves to the current
active point is a complete no-op: no line or point is created and the whole
state — including the active point, which stays Pending — is unchanged. -/
theorem c3_selfclick_noop (s : DrawingState) (x y : ℚ) (p : Point) (apid : Nat)
    (htool : s.currentTool = ToolType.marker)
    (hactive : s.activePointId = some apid)
    (hfind : findPointAtPosition s x y = some p)
    (hid : p.id = apid) :
    handleCanvasClick x y s = s := by
  simp [handleCanvasClick, htool, hactive, hfind, hid]

/-- C3 witness: the amended claim applied at the one-click state with a
second click at the same position. -/
theorem c3_witness :
    (findPointAtPosition stateOneClick 0 0 = some ⟨0, 0, 0⟩) ∧
    handleCanvasClick 0 0 stateOneClick = stateOneClick :=
  ⟨by norm_num [findPointAtPosition, stateOneClick, initState],
   c3_selfclick_noop stateOneClick 0 0 ⟨0, 0, 0⟩ 0 rfl rfl
     (by norm_num [findPointAtPosition, stateOneClick, initState]) rfl⟩

/-- Orphan scan of a state with no orphaned points returns nothing. -/
lemma findOrphanedPointIds_eq_nil (s : DrawingState) (h : NoOrphanPoints s) :
    findOrphanedPointIds s.lines s.points = [] := by
  unfold findOrphanedPointIds
  rw [List.map_eq_nil_iff]
  rw [List.filter_eq_nil_iff]
  intro p hp
  rw [decide_eq_true_eq]
  push_neg
  obtain ⟨l, hl, hor⟩ := h p hp
  exact ⟨l, hl, fun hs => by rcases hor with h1 | h1; exacts [absurd h1 hs, h1]⟩

/-- Erasing an absent element is the identity. -/
lemma setErase_not_mem (x : Nat) (l : List Nat) (h : x ∉ l) : setErase x l = l := by
  unfold setErase
  rw [List.filter_eq_self]
  intro y hy
  rw [decide_eq_true_eq]
  exact fun he => h (he ▸ hy)

/-- Deleting an angle id held by no angle and absent from the angle
selection changes nothing. -/
lemma deleteAngle_missing_noop (aid : Nat) (s : DrawingState)
    (h1 : ∀ a ∈ s.angles, a.id ≠ aid)
    (h2 : aid ∉ s.selectedAngleIds) :
    deleteAngle aid s = s := by
  simp only [deleteAngle]
  have e1 : s.angles.filter (fun a => decide (a.id ≠ aid)) = s.angles :=
    List.filter_eq_self.mpr (fun a ha => by rw [decide_eq_true_eq]; exact h1 a ha)
  rw [e1, setErase_not_mem aid _ h2]

/-- Deleting a point id that appears nowhere in the state is a no-op,
provided no point is currently orphaned (otherwise the unconditional orphan
sweep still fires). -/
lemma deletePoint_missing_noop (pid : Nat) (s : DrawingState)
    (hp : ∀ p ∈ s.points, p.id ≠ pid)
    (hl : ∀ l ∈ s.lines, l.startPointId ≠ pid ∧ l.endPointId ≠ pid)
    (hact : s.activePointId ≠ some pid)
    (hsel : pid ∉ s.selectedPointIds)
    (horph : NoOrphanPoints s) :
    deletePoint pid s = s := by
  simp only [deletePoint]
  have e1 : s.lines.filter (fun line =>
      decide (line.startPointId ≠ pid ∧ line.endPointId ≠ pid)) = s.lines :=
    List.filter_eq_self.mpr (fun l hl2 => by rw [decide_eq_true_eq]; exact hl l hl2)
  have e2 : s.points.filter (fun p => decide (p.id ≠ pid)) = s.points :=
    List.filter_eq_self.mpr (fun p hp2 => by rw [decide_eq_true_eq]; exact hp p hp2)
  rw [e1, e2, findOrphanedPointIds_eq_nil s horph]
  have e3 : s.points.filter (fun p => decide (p.id ∉ ([] : List Nat))) = s.points := by
    simp
  have e4 : s.lines.filter (fun line =>
      decide (line.startPointId = pid ∨ line.endPointId = pid)) = [] := by
    rw [List.filter_eq_nil_iff]
    intro l hl2
    rw [decide_eq_true_eq]
    push_neg
    exact hl l hl2
  rw [e3, e4]
  simp only [List.map_nil]
  have e5 : s.angles.filter (fun a =>
      decide (a.line1Id ∉ ([] : List Nat) ∧ a.line2Id ∉ ([] : List Nat))) = s.angles := by
    simp
  rw [e5, if_neg hact, setErase_not_mem pid _ hsel]

/-- Deleting a line id that appears nowhere in the state is a no-op,
provided no point is currently orphaned. -/
lemma deleteLine_missing_noop (lid : Nat) (s : DrawingState)
    (hl : ∀ l ∈ s.lines, l.id ≠ lid)
    (ha : ∀ a ∈ s.angles, a.line1Id ≠ lid ∧ a.line2Id ≠ lid)
    (hsel : lid ∉ s.selectedLineIds)
    (horph : NoOrphanPoints s) :
    deleteLine lid s = s := by
  simp only [deleteLine]
  have e1 : s.lines.filter (fun l => decide (l.id ≠ lid)) = s.lines :=
    List.filter_eq_self.mpr (fun l hl2 => by rw [decide_eq_true_eq]; exact hl l hl2)
  rw [e1, findOrphanedPointIds_eq_nil s horph]
  have e3 : s.points.filter (fun p => decide (p.id ∉ ([] : List Nat))) = s.points := by
    simp
  have e5 : s.angles.filter (fun a =>
      decide (a.line1Id ≠ lid ∧ a.line2Id ≠ lid)) = s.angles :=
    List.filter_eq_self.mpr (fun a ha2 => by rw [decide_eq_true_eq]; exact ha a ha2)
  rw [e3, e5, setErase_not_mem lid _ hsel]

/-- C4 (counterexample): deleting the absent point id 99 from the one-click
state is not a no-op — the orphan sweep inside `deletePoint` removes the
pending point, so the state changes although 99 is in no collection. -/
theorem c4_counterexample :
    (∀ p ∈ stateOneClick.points, p.id ≠ 99) ∧
    (deletePoint 99 stateOneClick).points = [] ∧ stateOneClick.points ≠ [] := by
  refine ⟨?_, ?_, ?_⟩
  · simp [stateOneClick, initState]
  · norm_num [deletePoint, stateOneClick, initState, findOrphanedPointIds]
  · simp [stateOneClick, initState]

/-- C4 (amended): deleting a non-existent id is a no-op provided the id
also appears in no other channel and no point is currently orphaned:
`deleteAngle aid` is a complete no-op whenever `aid` names no angle and is
not in the angle selection; `deletePoint pid` (resp. `deleteLine lid`) is a
complete no-op whenever the id appears in no collection, selection, line
reference (resp. angle reference) or active pointer — and, because both
operations unconditionally sweep orphaned points, only when no point has
zero incident lines. -/
theorem c4_delete_missing_id (s : DrawingState) (pid lid aid : Nat)
    (hp1 : ∀ p ∈ s.points, p.id ≠ pid)
    (hp2 : ∀ l ∈ s.lines, l.startPointId ≠ pid ∧ l.endPointId ≠ pid)
    (hp3 : s.activePointId ≠ some pid)
    (hp4 : pid ∉ s.selectedPointIds)
    (hl1 : ∀ l ∈ s.lines, l.id ≠ lid)
    (hl2 : ∀ a ∈ s.angles, a.line1Id ≠ lid ∧ a.line2Id ≠ lid)
    (hl3 : lid ∉ s.selectedLineIds)
    (ha1 : ∀ a ∈ s.angles, a.id ≠ aid)
    (ha2 : aid ∉ s.selectedAngleIds)
    (horph : NoOrphanPoints s) :
    deletePoint pid s = s ∧ deleteLine lid s = s ∧ deleteAngle aid s = s :=
  ⟨deletePoint_missing_noop pid s hp1 hp2 hp3 hp4 horph,
   deleteLine_missing_noop lid s hl1 hl2 hl3 horph,
   deleteAngle_missing_noop aid s ha1 ha2⟩

/-- C4 witness: the amended claim applied to the concrete chain state at
the absent id 99 — all three deletes leave the state unchanged. -/
theorem c4_witness :
    deletePoint 99 sChain = sChain ∧ deleteLine 99 sChain = sChain ∧
    deleteAngle 99 sChain = sChain :=
  c4_delete_missing_id sChain 99 99 99
    (by simp [sChain, initState]) (by simp [sChain, initState])
    (by simp [sChain, initState]) (by simp [sChain, initState])
    (by simp [sChain, initState]) (by simp [sChain, initState])
    (by simp [sChain, initState]) (by simp [sChain, initState])
    (by simp [sChain, initState]) (by simp [NoOrphanPoints, sChain, initState])

/-- State with the circle tool current and the circle selected. -/
def stateCircleSelected : DrawingState :=
  selectCircle (setCurrentTool ToolType.circle initState)

/-- C5 (counterexample): a plain (non-additive) `selectPoint` does not clear
the circle-selected flag — after selecting the circle, a plain point
selection leaves `isCircleSelected` true, contradicting the claim that the
flag is cleared. -/
theorem c5_counterexample :
    (selectPoint (some 0) false stateCircleSelected).isCircleSelected = true ∧
    (selectPoint (some 0) false stateCircleSelected).selectedPointIds = [0] := by
  constructor <;>
    simp [selectPoint, stateCircleSelected, selectCircle, setCurrentTool, initState,
      findOrphanedPointIds]

/-- Membership after a toggle: the toggled element flips. -/
lemma setToggle_self_mem (x : Nat) (l : List Nat) : x ∈ setToggle x l ↔ x ∉ l := by
  unfold setToggle setErase
  by_cases h : x ∈ l
  · simp [h, List.mem_filter]
  · simp [h]

/-- Membership after a toggle: every other element is untouched. -/
lemma setToggle_other_mem (x q : Nat) (l : List Nat) (h : q ≠ x) :
    q ∈ setToggle x l ↔ q ∈ l := by
  unfold setToggle setErase
  by_cases hx : x ∈ l
  · simp [hx, List.mem_filter, h]
  · simp [hx, h]

/-- C5 (amended): a plain (non-additive) selection replaces its own class's
selection with exactly the given id and clears the other two classes'
selection sets, but leaves the circle-selected flag (and everything else)
unchanged; an additive (toggle) selection only flips that id's membership
within its own class's set, leaving all other channels untouched. -/
theorem c5_selection_semantics (s : DrawingState) (pid lid aid : Nat) :
    (selectPoint (some pid) false s =
      { s with selectedPointIds := [pid], selectedLineIds := [], selectedAngleIds := [] }) ∧
    (selectLine (some lid) false s =
      { s with selectedLineIds := [lid], selectedPointIds := [], selectedAngleIds := [] }) ∧
    (selectAngle (some aid) false s =
      { s with selectedAngleIds := [aid], selectedPointIds := [], selectedLineIds := [] }) ∧
    (selectPoint (some pid) true s =
      { s with selectedPointIds := setToggle pid s.selectedPointIds }) ∧
    (selectLine (some lid) true s =
      { s with selectedLineIds := setToggle lid s.selectedLineIds }) ∧
    (selectAngle (some aid) true s =
      { s with selectedAngleIds := setToggle aid s.selectedAngleIds }) ∧
    (pid ∈ (selectPoint (some pid) true s).selectedPointIds ↔ pid ∉ s.selectedPointIds) ∧
    (∀ q, q ≠ pid →
      ((q ∈ (selectPoint (some pid) true s).selectedPointIds) ↔ q ∈ s.selectedPointIds)) := by
  refine ⟨rfl, rfl, rfl, rfl, rfl, rfl, ?_, ?_⟩
  · exact setToggle_self_mem pid s.selectedPointIds
  · intro q hq
    exact setToggle_other_mem pid q s.selectedPointIds hq

/-- C5 witness: the amended claim applied at the circle-selected state with
point id 3; the inner inequality hypothesis is discharged at q = 7. -/
theorem c5_witness :
    (selectPoint (some 3) false stateCircleSelected =
      { stateCircleSelected with
        selectedPointIds := [3], selectedLineIds := [], selectedAngleIds := [] }) ∧
    ((7 ∈ (selectPoint (some 3) true stateCircleSelected).selectedPointIds) ↔
      7 ∈ stateCircleSelected.selectedPointIds) :=
  ⟨(c5_selection_semantics stateCircleSelected 3 0 0).1,
   (c5_selection_semantics stateCircleSelected 3 0 0).2.2.2.2.2.2.2 7 (by decide)⟩

/-- C6: when a Pending-state click resolves an existing end-target distinct
from the active point and a line between the same unordered point pair
already exists, no new line (hence no new label), no new point and no id is
generated; the only state change is that the end-target becomes the new
active point. -/
theorem c6_duplicate_line_click (s : DrawingState) (x y : ℚ) (p : Point) (apid : Nat)
    (htool : s.currentTool = ToolType.marker)
    (hactive : s.activePointId = some apid)
    (hfind : findPointAtPosition s x y = some p)
    (hne : p.id ≠ apid)
    (hdup : lineExists s.lines apid p.id = true) :
    handleCanvasClick x y s = { s with activePointId := some p.id } := by
  simp [handleCanvasClick, htool, hactive, hfind, hne, completeLine, hdup]

/-- C6 witness: clicking back on point 0 of the two-click state (where line
A already joins the active point 1 and point 0) only moves the active
point. -/
theorem c6_witness :
    (findPointAtPosition stateTwoClicks 0 0 = some ⟨0, 0, 0⟩) ∧
    (lineExists stateTwoClicks.lines 1 0 = true) ∧
    handleCanvasClick 0 0 stateTwoClicks =
      { stateTwoClicks with activePointId := some 0 } :=
  ⟨by norm_num [findPointAtPosition, stateTwoClicks, initState],
   by simp [lineExists, stateTwoClicks, initState],
   c6_duplicate_line_click stateTwoClicks 0 0 ⟨0, 0, 0⟩ 1 rfl rfl
     (by norm_num [findPointAtPosition, stateTwoClicks, initState]) (by decide)
     (by simp [lineExists, stateTwoClicks, initState])⟩

/-- Expected label of the (i+1)-st line created with no deletions. -/
def labelFor (i : Nat) : String :=
  if i < 26 then alphabet.getD i "" else "L" ++ toString (i + 1)

set_option maxRecDepth 4000 in
lemma getNextLabel_prefix_lt (n : Nat) (h : n < 26) :
    getNextLabel ((List.range n).map labelFor) = labelFor n := by
  revert h
  revert n
  decide

lemma labelFor_lt (i : Nat) (h : i < 26) : labelFor i = alphabet.getD i "" := if_pos h

lemma getNextLabel_prefix_ge (n : Nat) (h : 26 ≤ n) :
    getNextLabel ((List.range n).map labelFor) = labelFor n := by
  unfold getNextLabel
  have hnone : alphabet.find? (fun c => decide (c ∉ (List.range n).map labelFor)) = none := by
    rw [List.find?_eq_none]
    intro c hc
    simp only [decide_eq_true_eq, not_not, Decidable.not_not]
    obtain ⟨j, hj, hget⟩ := List.mem_iff_getElem.mp hc
    have hj26 : j < 26 := by simpa [alphabet] using hj
    apply List.mem_map.mpr
    refine ⟨j, List.mem_range.mpr (lt_of_lt_of_le hj26 h), ?_⟩
    rw [labelFor_lt j hj26]
    rw [List.getD_eq_getElem?_getD]
    rw [List.getElem?_eq_getElem hj]
    simpa using hget
  rw [hnone]
  have hlen : ((List.range n).map labelFor).length = n := by simp
  rw [hlen]
  unfold labelFor
  rw [if_neg (by omega)]

/-- Iterated label assignment: the labels of lines created in sequence. -/
def mkLabels : Nat → List String
  | 0 => []
  | n + 1 => mkLabels n ++ [getNextLabel (mkLabels n)]

lemma mkLabels_eq (n : Nat) : mkLabels n = (List.range n).map labelFor := by
  induction n with
  | zero => rfl
  | succ k ih =>
    rw [mkLabels, ih, List.range_succ, List.map_append]
    by_cases hk : k < 26
    · rw [getNextLabel_prefix_lt k hk]
      rfl
    · rw [getNextLabel_prefix_ge k (by omega)]
      rfl

/-- Characterisation of a marker click on an empty spot while a point is
active: a fresh point and a fresh line labelled with the next free label
are appended, and the new point becomes active. -/
lemma handleCanvasClick_fresh (s : DrawingState) (x y : ℚ) (a : Nat)
    (htool : s.currentTool = ToolType.marker)
    (hactive : s.activePointId = some a)
    (hfind : findPointAtPosition s x y = none)
    (hfresh : ∀ l ∈ s.lines, l.startPointId ≠ s.nextId ∧ l.endPointId ≠ s.nextId) :
    handleCanvasClick x y s =
      { s with
        points := s.points ++ [⟨s.nextId, x, y⟩]
        lines := s.lines ++
          [⟨s.nextId + 1, getNextLabel (s.lines.map Line.label), a, s.nextId⟩]
        activePointId := some s.nextId
        nextId := s.nextId + 2 } := by
  have hex : lineExists s.lines a s.nextId = false := by
    unfold lineExists
    rw [List.any_eq_false]
    intro l hl
    have h2 := hfresh l hl
    simp only [Bool.or_eq_true, Bool.and_eq_true, beq_iff_eq, not_or, not_and]
    exact ⟨fun _ he => h2.2 he, fun hs => absurd hs h2.1⟩
  simp [handleCanvasClick, htool, hactive, hfind, addPoint, completeLine, hex]





/-- Marker clicks at x = 0, 40, 80, ..., 40 n (all farther than the
15-unit hit radius from each other), starting from the empty state:
n + 1 clicks creating n lines. -/
def runChain (n : Nat) : DrawingState :=
  (List.range (n + 1)).foldl (fun s (i : Nat) => handleCanvasClick (40 * (i : ℚ)) 0 s) initState

/-- Invariant of the chain run after the (k+1)-st click. -/
structure ChainInv (k : Nat) (s : DrawingState) : Prop where
  tool : s.currentTool = ToolType.marker
  labels : s.lines.map Line.label = mkLabels k
  active : ∃ a, s.activePointId = some a ∧ a < s.nextId
  coords : ∀ p ∈ s.points, ∃ i : Nat, i ≤ k ∧ p.x = 40 * (i : ℚ) ∧ p.y = 0
  lineIds : ∀ l ∈ s.lines, l.startPointId < s.nextId ∧ l.endPointId < s.nextId

/-- Evaluation of the very first marker click on the empty state. -/
lemma handleCanvasClick_first (x y : ℚ) :
    handleCanvasClick x y initState =
      { initState with points := [⟨0, x, y⟩], activePointId := some 0, nextId := 1 } := by
  norm_num [handleCanvasClick, initState, findPointAtPosition, addPoint]

lemma chainInv_step (k : Nat) (s : DrawingState) (h : ChainInv k s) :
    ChainInv (k + 1) (handleCanvasClick (40 * ((k + 1 : Nat) : ℚ)) 0 s) := by
  obtain ⟨a, ha, halt⟩ := h.active
  have hfind : findPointAtPosition s (40 * ((k + 1 : Nat) : ℚ)) 0 = none := by
    unfold findPointAtPosition
    rw [List.find?_eq_none]
    intro p hp
    rw [decide_eq_true_iff]
    obtain ⟨i, hik, hx, hy⟩ := h.coords p hp
    rw [hx, hy]
    have hi : (i : ℚ) ≤ (k : ℚ) := by exact_mod_cast hik
    push_cast
    intro hle
    have hA : 40 * (i : ℚ) - 40 * ((k : ℚ) + 1) ≤ -40 := by linarith
    nlinarith [hA]
  have hfresh : ∀ l ∈ s.lines, l.startPointId ≠ s.nextId ∧ l.endPointId ≠ s.nextId := by
    intro l hl
    have h2 := h.lineIds l hl
    omega
  rw [handleCanvasClick_fresh s _ _ a h.tool ha hfind hfresh]
  refine ⟨h.tool, ?_, ⟨s.nextId, rfl, by show s.nextId < s.nextId + 2; omega⟩, ?_, ?_⟩
  · show (s.lines ++ [_]).map Line.label = mkLabels (k + 1)
    rw [List.map_append, h.labels]
    show mkLabels k ++ [getNextLabel (mkLabels k)] = mkLabels (k + 1)
    rfl
  · intro p hp
    rw [List.mem_append] at hp
    rcases hp with hp | hp
    · obtain ⟨i, hik, hx, hy⟩ := h.coords p hp
      exact ⟨i, by omega, hx, hy⟩
    · rw [List.mem_singleton] at hp
      subst hp
      exact ⟨k + 1, le_refl _, rfl, rfl⟩
  · intro l hl
    rw [List.mem_append] at hl
    rcases hl with hl | hl
    · have h2 := h.lineIds l hl
      show l.startPointId < s.nextId + 2 ∧ l.endPointId < s.nextId + 2
      omega
    · rw [List.mem_singleton] at hl
      subst hl
      show a < s.nextId + 2 ∧ s.nextId < s.nextId + 2
      omega

lemma chainInv_runChain (n : Nat) : ChainInv n (runChain n) := by
  induction n with
  | zero =>
    have h0 : runChain 0 = handleCanvasClick (40 * ((0 : Nat) : ℚ)) 0 initState := by
      unfold runChain
      simp [List.range_succ]
    rw [h0, handleCanvasClick_first]
    refine ⟨rfl, rfl, ⟨0, rfl, by show 0 < 1; omega⟩, ?_, ?_⟩
    · intro p hp
      rw [List.mem_singleton] at hp
      subst hp
      exact ⟨0, le_refl _, rfl, rfl⟩
    · intro l hl
      simp [initState] at hl
  | succ k ih =>
    have hstep : runChain (k + 1) =
        handleCanvasClick (40 * ((k + 1 : Nat) : ℚ)) 0 (runChain k) := by
      unfold runChain
      rw [List.range_succ, List.foldl_append]
      rfl
    rw [hstep]
    exact chainInv_step k (runChain k) ih

/-- C7: creating lines in sequence with no deletions (a chain of marker
clicks at pairwise-distant positions starting from the empty state) labels
the i-th line (0-based) with `labelFor i`: the (i+1)-st letter A, B, ..., Z
for i < 26 and the overflow label L(i+1) (L27, L28, ...) for i >= 26. -/
theorem c7_sequential_labels (n : Nat) :
    (runChain n).lines.map Line.label = (List.range n).map labelFor ∧
    labelFor 0 = "A" ∧ labelFor 25 = "Z" ∧ labelFor 26 = "L27" ∧ labelFor 27 = "L28" := by
  refine ⟨?_, rfl, rfl, rfl, rfl⟩
  rw [(chainInv_runChain n).labels, mkLabels_eq]

noncomputable section

/-- Model of `Math.atan2 y x`: the argument of the complex number `x + y i`,
ranging over `(-pi, pi]`. -/
def atan2 (y x : ℝ) : ℝ := Complex.arg ⟨x, y⟩

/-- Model of the dot-product angle of `calculateAngleBetweenLines`, in
degrees: inverse cosine of the normalized dot product of the two
vertex-to-far-point vectors, clamped to `[-1, 1]`, converted to degrees;
defined as 0 when either vector has zero length. -/
def dotAngleDeg (vx vy p1x p1y p2x p2y : ℝ) : ℝ :=
  let v1x := p1x - vx
  let v1y := p1y - vy
  let v2x := p2x - vx
  let v2y := p2y - vy
  let dot := v1x * v2x + v1y * v2y
  let mag1 := Real.sqrt (v1x * v1x + v1y * v1y)
  let mag2 := Real.sqrt (v2x * v2x + v2y * v2y)
  if mag1 = 0 ∨ mag2 = 0 then 0
  else
    Real.arccos (max (-1) (min 1 (dot / (mag1 * mag2)))) * (180 / Real.pi)

/-- Normalization of `getAngleArc`: shift the raw ray-angle difference into
`[-pi, pi]` by the two conditional `2 pi` shifts of the source. -/
def normalizeSweep (d : ℝ) : ℝ :=
  let s1 := if d > Real.pi then d - 2 * Real.pi else d
  if s1 < -Real.pi then s1 + 2 * Real.pi else s1

/-- Model of the swept angle of `getAngleArc`: normalized difference of the
two `atan2` ray angles at the vertex. -/
def sweepAngle (vx vy p1x p1y p2x p2y : ℝ) : ℝ :=
  normalizeSweep (atan2 (p2y - vy) (p2x - vx) - atan2 (p1y - vy) (p1x - vx))

/-- Displayed measurement of `getAngleArc`: the swept angle's absolute value
in degrees. -/
def arcSweepDeg (vx vy p1x p1y p2x p2y : ℝ) : ℝ :=
  |sweepAngle vx vy p1x p1y p2x p2y| * (180 / Real.pi)

end

/-- Normalizing never changes the cosine (the shifts are full turns). -/
lemma normalizeSweep_cos (d : ℝ) : Real.cos (normalizeSweep d) = Real.cos d := by
  unfold normalizeSweep
  by_cases h1 : d > Real.pi
  · rw [if_pos h1]
    by_cases h2 : d - 2 * Real.pi < -Real.pi
    · rw [if_pos h2]
      have he : d - 2 * Real.pi + 2 * Real.pi = d := by ring
      rw [he]
    · rw [if_neg h2, Real.cos_sub_two_pi]
  · rw [if_neg h1]
    by_cases h2 : d < -Real.pi
    · rw [if_pos h2, Real.cos_add_two_pi]
    · rw [if_neg h2]

/-- Normalizing a difference of two angles from `(-2 pi, 2 pi)` lands in
`[-pi, pi]`. -/
lemma normalizeSweep_abs_le (d : ℝ) (hlo : -(2 * Real.pi) < d)
    (hhi : d < 2 * Real.pi) : |normalizeSweep d| ≤ Real.pi := by
  have hpi := Real.pi_pos
  unfold normalizeSweep
  by_cases h1 : d > Real.pi
  · rw [if_pos h1]
    have h2 : ¬(d - 2 * Real.pi < -Real.pi) := by linarith
    rw [if_neg h2, abs_le]
    constructor <;> linarith
  · rw [if_neg h1]
    push_neg at h1
    by_cases h2 : d < -Real.pi
    · rw [if_pos h2, abs_le]
      constructor <;> linarith
    · push_neg at h2
      rw [if_neg (by linarith : ¬(d < -Real.pi)), abs_le]
      constructor <;> linarith





/-- Cosine of the difference of two complex arguments is the normalized dot
product of the two vectors. -/
lemma cos_arg_sub_eq (z1 z2 : ℂ) (h1 : z1 ≠ 0) (h2 : z2 ≠ 0) :
    Real.cos (z2.arg - z1.arg) =
      (z1.re * z2.re + z1.im * z2.im) / (Complex.abs z1 * Complex.abs z2) := by
  have ha1 : Complex.abs z1 ≠ 0 := Complex.abs.ne_zero h1
  have ha2 : Complex.abs z2 ≠ 0 := Complex.abs.ne_zero h2
  rw [Real.cos_sub, Complex.cos_arg h1, Complex.cos_arg h2, Complex.sin_arg, Complex.sin_arg]
  field_simp
  ring





/-- Over the reals the two angle computations agree exactly for nonzero
vectors. -/
lemma dotAngleDeg_eq_arcSweepDeg (vx vy p1x p1y p2x p2y : ℝ)
    (h1 : ¬(p1x - vx = 0 ∧ p1y - vy = 0))
    (h2 : ¬(p2x - vx = 0 ∧ p2y - vy = 0)) :
    dotAngleDeg vx vy p1x p1y p2x p2y = arcSweepDeg vx vy p1x p1y p2x p2y := by
  set ux := p1x - vx with hux
  set uy := p1y - vy with huy
  set wx := p2x - vx with hwx
  set wy := p2y - vy with hwy
  have hz1 : (⟨ux, uy⟩ : ℂ) ≠ 0 := by
    intro h
    rw [Complex.ext_iff] at h
    exact h1 ⟨h.1, h.2⟩
  have hz2 : (⟨wx, wy⟩ : ℂ) ≠ 0 := by
    intro h
    rw [Complex.ext_iff] at h
    exact h2 ⟨h.1, h.2⟩
  have habs1 : Complex.abs ⟨ux, uy⟩ = Real.sqrt (ux * ux + uy * uy) := by
    rw [Complex.abs_apply, Complex.normSq_mk]
  have habs2 : Complex.abs ⟨wx, wy⟩ = Real.sqrt (wx * wx + wy * wy) := by
    rw [Complex.abs_apply, Complex.normSq_mk]
  have hm1 : Real.sqrt (ux * ux + uy * uy) ≠ 0 := habs1 ▸ Complex.abs.ne_zero hz1
  have hm2 : Real.sqrt (wx * wx + wy * wy) ≠ 0 := habs2 ▸ Complex.abs.ne_zero hz2
  set d := Complex.arg ⟨wx, wy⟩ - Complex.arg ⟨ux, uy⟩ with hd
  have hcosd : Real.cos d = (ux * wx + uy * wy) /
      (Real.sqrt (ux * ux + uy * uy) * Real.sqrt (wx * wx + wy * wy)) := by
    rw [hd, cos_arg_sub_eq ⟨ux, uy⟩ ⟨wx, wy⟩ hz1 hz2, habs1, habs2]
  have hdlo : -(2 * Real.pi) < d := by
    have := Complex.neg_pi_lt_arg (⟨wx, wy⟩ : ℂ)
    have := Complex.arg_le_pi (⟨ux, uy⟩ : ℂ)
    rw [hd]
    linarith
  have hdhi : d < 2 * Real.pi := by
    have := Complex.arg_le_pi (⟨wx, wy⟩ : ℂ)
    have := Complex.neg_pi_lt_arg (⟨ux, uy⟩ : ℂ)
    rw [hd]
    linarith
  have hnorm : |normalizeSweep d| ≤ Real.pi := normalizeSweep_abs_le d hdlo hdhi
  have hcos2 : Real.cos d = Real.cos |normalizeSweep d| := by
    rw [Real.cos_abs, normalizeSweep_cos]
  simp only [dotAngleDeg, arcSweepDeg, sweepAngle, atan2]
  rw [if_neg (by push_neg; exact ⟨hm1, hm2⟩)]
  rw [← hcosd]
  rw [min_eq_right (Real.cos_le_one d), max_eq_right (Real.neg_one_le_cos d)]
  rw [hcos2, Real.arccos_cos (abs_nonneg _) hnorm]

/-- C8: for every vertex V and far points P1, P2 each at nonzero distance
from V, the dot-product angle (arccos of the clamped normalized dot
product, in degrees) agrees within 1e-6 degrees with the arc-sweep
method's displayed value (|normalized atan2 ray-angle difference| in
degrees) — over the reals they are equal, so the difference is 0. -/
theorem c8_angle_methods_agree (vx vy p1x p1y p2x p2y : ℝ)
    (h1 : ¬(p1x - vx = 0 ∧ p1y - vy = 0))
    (h2 : ¬(p2x - vx = 0 ∧ p2y - vy = 0)) :
    |dotAngleDeg vx vy p1x p1y p2x p2y - arcSweepDeg vx vy p1x p1y p2x p2y| ≤
      1 / 1000000 := by
  rw [dotAngleDeg_eq_arcSweepDeg vx vy p1x p1y p2x p2y h1 h2]
  norm_num

/-- C8 witness: the claim applied at vertex (0,0) with far points (1,0)
and (0,1). -/
theorem c8_witness :
    (¬((1 : ℝ) - 0 = 0 ∧ (0 : ℝ) - 0 = 0)) ∧
    (¬((0 : ℝ) - 0 = 0 ∧ (1 : ℝ) - 0 = 0)) ∧
    |dotAngleDeg 0 0 1 0 0 1 - arcSweepDeg 0 0 1 0 0 1| ≤ 1 / 1000000 :=
  ⟨by norm_num, by norm_num,
   c8_angle_methods_agree 0 0 1 0 0 1 (by norm_num) (by norm_num)⟩

/-- Model of the anchor computation of `handleBoundingBoxHandleMouseDown`:
the fixed point opposite the dragged handle. -/
def handleAnchor (handleId : String) (c : Circle) : ℚ × ℚ :=
  if handleId = "top-left" then (c.centerX + c.radius, c.centerY + c.radius)
  else if handleId = "top-right" then (c.centerX - c.radius, c.centerY + c.radius)
  else if handleId = "bottom-left" then (c.centerX + c.radius, c.centerY - c.radius)
  else if handleId = "bottom-right" then (c.centerX - c.radius, c.centerY - c.radius)
  else if handleId = "top" then (c.centerX, c.centerY + c.radius)
  else if handleId = "bottom" then (c.centerX, c.centerY - c.radius)
  else if handleId = "left" then (c.centerX + c.radius, c.centerY)
  else if handleId = "right" then (c.centerX - c.radius, c.centerY)
  else (c.centerX, c.centerY)

/-- Model of the resize branch of `handleMouseMove`: the partial update sent
to `onCircleResize` (which is `updateCircle`), given the dragged handle, the
circle, the drag anchor and the pointer position; `none` when the handle id
is not recognised (the handler returns without an update). -/
def resizeCircleUpdate (draggingHandle : String) (c : Circle)
    (anchorX anchorY x y : ℚ) : Option CircleUpdate :=
  let dx := x - anchorX
  let dy := y - anchorY
  if draggingHandle ∈ ["top-left", "top-right", "bottom-left", "bottom-right"] then
    let size := max 10 (min |dx| |dy|)
    let newRadius := size / 2
    some ⟨some (anchorX + if dx > 0 then newRadius else -newRadius),
          some (anchorY + if dy > 0 then newRadius else -newRadius),
          some newRadius⟩
  else if draggingHandle ∈ ["top", "bottom"] then
    let newRadius := max 5 (|dy| / 2)
    some ⟨some c.centerX,
          some (anchorY + if dy > 0 then newRadius else -newRadius),
          some newRadius⟩
  else if draggingHandle ∈ ["left", "right"] then
    let newRadius := max 5 (|dx| / 2)
    some ⟨some (anchorX + if dx > 0 then newRadius else -newRadius),
          some c.centerY,
          some newRadius⟩
  else none

/-- C9 (counterexample): resizing the default circle (center (50,50),
radius 50) via the "right" handle with the pointer at (120,50) anchors at
(0,50) and yields radius 60 = |120 - 0| / 2 — not approximately 35 as
claimed (the gap is 25). -/
theorem c9_counterexample :
    handleAnchor "right" ⟨0, 50, 50, 50⟩ = (0, 50) ∧
    resizeCircleUpdate "right" ⟨0, 50, 50, 50⟩ 0 50 120 50 =
      some ⟨some 60, some 50, some 60⟩ ∧
    |(60 : ℚ) - 35| = 25 := by
  refine ⟨?_, ?_, by norm_num⟩
  · norm_num [handleAnchor]
    decide
  · norm_num [resizeCircleUpdate]
    decide





/-- C9 (amended): from the default circle at (50,50) with radius 50, a
"right"-handle resize to pointer (120,50) fixes the anchor at (0,50),
leaves centerY unchanged at 50, and yields the new radius 60 (half of
|120 - anchorX|), moving the center to (60,50). -/
theorem c9_right_handle_resize (cid : Nat) :
    handleAnchor "right" ⟨cid, 50, 50, 50⟩ = (0, 50) ∧
    resizeCircleUpdate "right" ⟨cid, 50, 50, 50⟩ 0 50 120 50 =
      some ⟨some 60, some 50, some 60⟩ ∧
    applyCircleUpdate ⟨some 60, some 50, some 60⟩ ⟨cid, 50, 50, 50⟩ =
      ⟨cid, 60, 50, 60⟩ := by
  refine ⟨?_, ?_, rfl⟩
  · norm_num [handleAnchor]
    decide
  · norm_num [resizeCircleUpdate]
    decide

/-- C10: `updateCircle u` never creates a circle (no-op when none exists),
and when one exists it overwrites exactly the fields present in `u` with
their supplied values verbatim (no clamping), keeping the id, the absent
fields and every other state component. -/
theorem c10_updateCircle_frame (s : DrawingState) (u : CircleUpdate) :
    (s.circle = none → updateCircle u s = s) ∧
    ∀ c, s.circle = some c →
      updateCircle u s =
        { s with circle := some ⟨c.id, u.centerX.getD c.centerX,
                                 u.centerY.getD c.centerY, u.radius.getD c.radius⟩ } := by
  constructor
  · intro h
    simp [updateCircle, h]
  · intro c h
    simp [updateCircle, h, applyCircleUpdate]

/-- State with a circle, for the C10 witness. -/
def stateWithCircle : DrawingState :=
  { initState with circle := some ⟨5, 50, 50, 50⟩ }

/-- C10 witness: the claim applied to the empty state (no circle) and to a
state with a circle, updating the radius to the negative value -3, which is
stored verbatim. -/
theorem c10_witness :
    (updateCircle ⟨some 1, none, none⟩ initState = initState) ∧
    updateCircle ⟨none, none, some (-3)⟩ stateWithCircle =
      { stateWithCircle with circle := some ⟨5, 50, 50, -3⟩ } :=
  ⟨(c10_updateCircle_frame initState ⟨some 1, none, none⟩).1 rfl,
   (c10_updateCircle_frame stateWithCircle ⟨none, none, some (-3)⟩).2 ⟨5, 50, 50, 50⟩ rfl⟩

end DrawMeasure
